import Mathlib

/-!
Shallow embedding of `src/app.py` (finance-rag): a Pathway streaming RAG
pipeline script.  The script runs top to bottom once at process start:
it loads configuration from environment variables, checks the optional
imports (parser, splitter, embedder), builds the dataflow
(documents → chunks → docs_for_store), creates a brute-force KNN factory
and a DocumentStore, starts a REST server, and finally calls `pw.run()`.

The embedding models:
 * Python runtime values (`PyVal`) far enough for the defensive
   `isinstance(v, tuple)` lambdas in the script,
 * Python `int(...)` conversion of strings (`pyIntOfString`),
 * the environment / capability inputs that decide the script's branches,
 * each dataflow stage as a pure function on rows,
 * the startup sequence as an `Except`-valued function whose `error`
   outcome is an uncaught Python exception aborting the process.
-/

namespace FinanceRag

/-- Model of the Python runtime values that can appear in the record
fields handled by the script: strings, integers, tuples and lists. -/
inductive PyVal where
  | str (s : String)
  | int (n : Int)
  | tuple (elems : List PyVal)
  | listv (elems : List PyVal)

/-- Python exceptions that the modelled expressions can raise. -/
inductive PyErr where
  | indexError
  | valueError
  | osError
deriving Repr, DecidableEq

/-- Single-quote character used by Python `repr` of strings. -/
def pyQuote : String := "\x27"

mutual

/-- Model of Python `repr` on `PyVal` (string escaping is not modelled:
the strings we evaluate contain no quotes or control characters). -/
def pyRepr : PyVal → String
  | .str s => pyQuote ++ s ++ pyQuote
  | .int n => toString n
  | .tuple l => "(" ++ pyReprSep l ++ (if l.length = 1 then ",)" else ")")
  | .listv l => "[" ++ pyReprSep l ++ "]"

/-- Comma-separated `repr`s of the elements, as Python prints
tuple/list bodies. -/
def pyReprSep : List PyVal → String
  | [] => ""
  | [v] => pyRepr v
  | v :: rest => pyRepr v ++ ", " ++ pyReprSep rest

end

/-- Model of Python `str(...)` on `PyVal`: identity on strings,
`repr` on containers, decimal rendering on integers. -/
def pyStr : PyVal → String
  | .str s => s
  | v => pyRepr v

/-- The lambda at app.py line 74,
`lambda body: body[0] if isinstance(body, tuple) else body`:
a tuple is indexed at 0 (raising `IndexError` when empty), every other
value is returned unchanged. -/
def extractBody : PyVal → Except PyErr PyVal
  | .tuple [] => .error .indexError
  | .tuple (x :: _) => .ok x
  | v => .ok v

/-- The lambda at app.py line 105,
`lambda chunk: chunk[0] if isinstance(chunk, tuple) else chunk`:
textually identical behaviour to the line-74 lambda. -/
def extractChunk : PyVal → Except PyErr PyVal
  | .tuple [] => .error .indexError
  | .tuple (x :: _) => .ok x
  | v => .ok v

/-- The lambda at app.py lines 147 and 157,
`lambda text: text[0] if isinstance(text, tuple) else str(text)`:
a tuple is indexed at 0 (raising `IndexError` when empty), every other
value is passed through Python `str(...)`. -/
def extractData : PyVal → Except PyErr PyVal
  | .tuple [] => .error .indexError
  | .tuple (x :: _) => .ok x
  | v => .ok (.str (pyStr v))

/-! ### Python `int(str)` conversion -/

/-- ASCII whitespace stripped by Python `int(...)` (model restricted to
ASCII input). -/
def isPySpace (c : Char) : Bool :=
  c = ' ' || c = '\t' || c = '\n' || c = '\r' || c = '\x0b' || c = '\x0c'

/-- Decimal digit value of a character. -/
def digitVal (c : Char) : Nat := c.toNat - 48

/-- Tail of a Python decimal literal: digits, with single underscores
allowed only between digits. `acc` is the value accumulated so far. -/
def pyDigitsAux : List Char → Nat → Option Nat
  | [], acc => some acc
  | c :: rest, acc =>
    if c.isDigit then pyDigitsAux rest (acc * 10 + digitVal c)
    else if c = '_' then
      match rest with
      | [] => none
      | d :: rest₂ =>
        if d.isDigit then pyDigitsAux rest₂ (acc * 10 + digitVal d) else none
    else none

/-- A Python decimal digit run: nonempty, starting with a digit. -/
def pyDigits : List Char → Option Nat
  | [] => none
  | c :: rest => if c.isDigit then pyDigitsAux rest (digitVal c) else none

/-- Model of Python `int(s)` for base-10 ASCII input: surrounding
whitespace is stripped, an optional sign precedes a nonempty digit run
with single underscores between digits; everything else raises
`ValueError` (modelled as `none`). -/
def pyIntOfString (s : String) : Option Int :=
  let core := ((s.toList.dropWhile isPySpace).reverse.dropWhile isPySpace).reverse
  match core with
  | '+' :: rest => (pyDigits rest).map Int.ofNat
  | '-' :: rest => (pyDigits rest).map (fun n => -(n : Int))
  | rest => (pyDigits rest).map Int.ofNat

/-! ### Configuration loading (app.py lines 37-40) -/

/-- Process environment: `os.getenv` lookups. -/
structure Env where
  getenv : String → Option String

/-- Outcome of the optional imports at app.py lines 8-28: which optional
pipeline components are importable in the installed Pathway build. -/
structure Caps where
  unstructuredAvailable : Bool
  tokenCountSplitterAvailable : Bool
  sentenceTransformerAvailable : Bool

/-- Errors that abort startup: an uncaught Python exception raised while
the script body executes. -/
inductive StartupError where
  | portValueError
  | embedderUnavailable
deriving Repr, DecidableEq

/-- An environment that attempts to supply alternative values for the
commit interval and the splitter token bounds through plausible
environment variables. -/
def envTuning : Env :=
  ⟨fun k =>
    if k = "COMMIT_INTERVAL_MS" then some "1000"
    else if k = "MIN_TOKENS" then some "10"
    else if k = "MAX_TOKENS" then some "100"
    else none⟩

/-- The configuration record bound by app.py lines 37-40. -/
structure Config where
  DATA_FILE : String
  HOST : String
  PORT : Int
  SENTENCE_TRANSFORMERS_MODEL : String
deriving Repr, DecidableEq

/-- Configuration loading, app.py lines 37-40: each value is
`os.getenv(name, default)`; `PORT` additionally passes through
`int(...)`, whose `ValueError` on a non-integer string propagates
uncaught. -/
def loadConfig (env : Env) : Except StartupError Config := do
  let dataFile := (env.getenv "DATA_FILE").getD "./feed.jsonl"
  let host := (env.getenv "HOST").getD "0.0.0.0"
  let port ←
    match pyIntOfString ((env.getenv "PORT").getD "8000") with
    | some p => Except.ok p
    | none => Except.error StartupError.portValueError
  let model := (env.getenv "SENTENCE_TRANSFORMERS_MODEL").getD "all-MiniLM-L6-v2"
  Except.ok ⟨dataFile, host, port, model⟩

/-! ### Embedding dimension resolution (app.py lines 123-136) -/

/-- Dimension resolution at app.py lines 123-128: the
`embedder.get_embedding_dimension()` call either returns a dimension or
raises; `dimQuery` is its outcome. On any exception the script logs a
warning and falls back to 384. -/
def emb_dim (dimQuery : Except PyErr Nat) : Nat :=
  match dimQuery with
  | .ok d => d
  | .error _ => 384

/-- The arguments the script passes to `BruteForceKnnFactory`
(app.py lines 131-136); the metric is fixed to cosine. -/
structure KnnFactoryArgs where
  reserved_space : Nat
  dimensions : Nat
deriving Repr, DecidableEq

/-- KNN factory construction, app.py lines 131-136: reserved space 1000
and `dimensions = emb_dim`, the single resolved value. -/
def knn_factory (dimQuery : Except PyErr Nat) : KnnFactoryArgs :=
  { reserved_space := 1000, dimensions := emb_dim dimQuery }

/-! ### Dataflow stages (app.py lines 59-158)

Pathway tables are modelled as lists of rows; `pw.apply` lambdas that can
raise propagate through `Except`. -/

/-- One raw record of the JSONL stream, per `NewsArticleSchema`
(app.py lines 59-61).  The body is kept as a `PyVal` because the
script's lambdas defend against tuple-wrapped values. -/
structure Record where
  headline : String
  body : PyVal

/-- A row of the `documents` table and of the `chunks` table
(columns `text`, `headline`). -/
structure DocRow where
  text : PyVal
  headline : String

/-- The `documents` table, app.py lines 73-76: row-wise, the body
passes through the line-74 tuple-unwrapping lambda into `text`, the
headline column is kept as is; a raising lambda fails the stage. -/
def documents : List Record → Except PyErr (List DocRow)
  | [] => Except.ok []
  | r :: rs =>
    match extractBody r.body with
    | .error e => .error e
    | .ok t =>
      match documents rs with
      | .error e => .error e
      | .ok rest => .ok (⟨t, r.headline⟩ :: rest)

/-- State of the token splitter decided once at pipeline construction:
the import at app.py lines 18-22 failed (`absent`), the construction
`try` block at lines 92-108 raised (`constructionFailed`), or the
splitter is applied with splitting function `split` mapping a text to
the list of chunk values it returns. -/
inductive SplitterStatus where
  | absent
  | constructionFailed
  | available (split : PyVal → List PyVal)

/-- The identity rebinding `chunks = documents` at app.py line 86: the
`UnstructuredParser` import outcome is never consulted. -/
def chunksBeforeSplit (_caps : Caps) (docs : List DocRow) : List DocRow :=
  docs

/-- Chunk rows produced from one document's list of split values
(the `select` at app.py lines 104-107): each chunk value passes the
line-105 tuple-unwrapping lambda into `text` and the parent document's
headline is copied to the row. -/
def splitRows (hline : String) : List PyVal → Except PyErr (List DocRow)
  | [] => Except.ok []
  | c :: cs =>
    match extractChunk c with
    | .error e => .error e
    | .ok t =>
      match splitRows hline cs with
      | .error e => .error e
      | .ok rest => .ok (⟨t, hline⟩ :: rest)

/-- The split-and-flatten of app.py lines 97-107: every document row is
split and its chunk rows are concatenated in document order. -/
def chunksFlat (split : PyVal → List PyVal) :
    List DocRow → Except PyErr (List DocRow)
  | [] => Except.ok []
  | d :: ds =>
    match splitRows d.headline (split d.text) with
    | .error e => .error e
    | .ok rows =>
      match chunksFlat split ds with
      | .error e => .error e
      | .ok rest => .ok (rows ++ rest)

/-- The `chunks` table after the optional splitter block, app.py
lines 91-113: when the splitter is importable and its construction
succeeds, each row is split, flattened to one row per chunk, with the
headline copied to every chunk row; when the splitter is absent
(line 113) or its construction raised (line 111), `chunks = documents`
unchanged. -/
def chunksStage (st : SplitterStatus) (docs : List DocRow) :
    Except PyErr (List DocRow) :=
  match st with
  | .absent => Except.ok docs
  | .constructionFailed => Except.ok docs
  | .available split => chunksFlat split docs

/-- Outcome of the `docs_for_store` construction `try` at app.py
lines 145-158: either the metadata column was built (lines 146-152) or
that `select` raised and the data-only format is used (lines 156-158). -/
inductive MetaSelect where
  | succeeded
  | raised
deriving Repr, DecidableEq

/-- A row of the `docs_for_store` table: the `data` column and the
optional `_metadata` column (a Python dict modelled as an association
list). -/
structure StoreDoc where
  data : PyVal
  metadata : Option (List (String × String))

/-- The `select` at app.py lines 146-152: each chunk's text passes the
line-147 lambda into `data`, and `_metadata` is
`{"headline": str(headline)}` (line 149; `str` is the identity on the
string-typed headline column). -/
def storeRowsWithMeta : List DocRow → Except PyErr (List StoreDoc)
  | [] => Except.ok []
  | c :: cs =>
    match extractData c.text with
    | .error e => .error e
    | .ok d =>
      match storeRowsWithMeta cs with
      | .error e => .error e
      | .ok rest => .ok (⟨d, some [("headline", c.headline)]⟩ :: rest)

/-- The fallback `select` at app.py lines 156-158: data only, no
metadata column. -/
def storeRowsDataOnly : List DocRow → Except PyErr (List StoreDoc)
  | [] => Except.ok []
  | c :: cs =>
    match extractData c.text with
    | .error e => .error e
    | .ok d =>
      match storeRowsDataOnly cs with
      | .error e => .error e
      | .ok rest => .ok (⟨d, none⟩ :: rest)

/-- The `docs_for_store` table, app.py lines 145-158: the
metadata-carrying select when its construction succeeded, the data-only
select when it raised. -/
def docs_for_store (ms : MetaSelect) (chunks : List DocRow) :
    Except PyErr (List StoreDoc) :=
  match ms with
  | .succeeded => storeRowsWithMeta chunks
  | .raised => storeRowsDataOnly chunks

/-! ### Server start (app.py lines 176-185) -/

/-- Behaviour of the `server.run(threaded=True)` call at app.py
line 180. -/
inductive RunBehavior where
  | ok
  | raisesTypeError
  | raisesOther
deriving Repr, DecidableEq

/-- Behaviour of the fallback `server.serve(threaded=True)` call at
app.py line 183. -/
inductive ServeBehavior where
  | ok
  | raises
deriving Repr, DecidableEq

/-- The try/except ladder at app.py lines 179-185: `server.run` is
attempted; only a `TypeError` is caught, triggering the `server.serve`
fallback whose own exceptions are caught and logged as a warning.
`Except.error` models an uncaught exception aborting startup;
`Except.ok` means execution reaches `pw.run()` at line 191. -/
def serverStart : RunBehavior → ServeBehavior → Except PyErr Unit
  | .ok, _ => Except.ok ()
  | .raisesOther, _ => Except.error .osError
  | .raisesTypeError, .ok => Except.ok ()
  | .raisesTypeError, .raises => Except.ok ()

/-! ### Startup sequence (app.py lines 37-136) -/

/-- The arguments given to `TokenCountSplitter` at app.py line 94. -/
structure SplitterArgs where
  min_tokens : Nat
  max_tokens : Nat
  encoding_name : String
deriving Repr, DecidableEq

/-- Everything the script has constructed by the time the
`DocumentStore` is built: the configuration, the stream reader's
autocommit interval (line 68), the splitter arguments when the
splitter import succeeded (line 94), and the KNN factory arguments
(lines 131-136). -/
structure Pipeline where
  cfg : Config
  autocommit_duration_ms : Nat
  splitterArgs : Option SplitterArgs
  knn : KnnFactoryArgs
deriving Repr, DecidableEq

/-- The startup sequence in script order: configuration loading
(lines 37-40, where a bad `PORT` raises `ValueError`), then the
embedder availability check (lines 49-53, raising `RuntimeError` when
`SentenceTransformerEmbedder is None`), then construction of the stream
reader, the chunking stages, and the KNN factory.  `Except.error`
models an uncaught exception: the process aborts and nothing after the
raising line is constructed. -/
def startup (caps : Caps) (env : Env) (dimQuery : Except PyErr Nat) :
    Except StartupError Pipeline := do
  let cfg ← loadConfig env
  if caps.sentenceTransformerAvailable then
    Except.ok
      { cfg := cfg
        autocommit_duration_ms := 500
        splitterArgs :=
          if caps.tokenCountSplitterAvailable then
            some ⟨50, 400, "cl100k_base"⟩
          else
            none
        knn := knn_factory dimQuery }
  else
    Except.error StartupError.embedderUnavailable

/-! ### Vector index (spec §4.5)

The index behind `BruteForceKnnFactory` is Pathway library code, not
part of this repository; it is modelled from the spec. -/

/-- Error raised by the index on a vector of the wrong length. -/
inductive IndexError where
  | dimensionMismatch
deriving Repr, DecidableEq

/-- Modelled from the spec: the exact brute-force nearest-neighbor
store behind `BruteForceKnnFactory` (its implementation lives in the
Pathway library, outside this repository).  Per spec §4.5 it is a
growable collection of `(vector, entry_id)` pairs; entry ids are
assigned monotonically in insertion order (spec §3: "ids are unique and
monotonically assigned"). -/
structure KnnIndex where
  dim : Nat
  entries : List (Nat × List ℚ)
  nextId : Nat

/-- Modelled from the spec: a freshly created index of dimension `d`
holds no entries. -/
def KnnIndex.empty (d : Nat) : KnnIndex :=
  ⟨d, [], 0⟩

/-- Modelled from the spec: `insert(vector, entry_id)` "appends the
entry; fails with a DimensionMismatch error if `len(vector) != D`"
(spec §4.5). -/
def KnnIndex.insert (idx : KnnIndex) (v : List ℚ) :
    Except IndexError KnnIndex :=
  if v.length = idx.dim then
    Except.ok ⟨idx.dim, idx.entries ++ [(idx.nextId, v)], idx.nextId + 1⟩
  else
    Except.error IndexError.dimensionMismatch

/-- The result ordering of spec §4.5: `(entry_id, score)` pairs ranked
by descending score, ties broken by ascending entry id. -/
def rankRel (a b : Nat × ℚ) : Prop :=
  b.2 < a.2 ∨ (a.2 = b.2 ∧ a.1 ≤ b.1)

instance : DecidableRel rankRel := fun a b =>
  inferInstanceAs (Decidable (b.2 < a.2 ∨ (a.2 = b.2 ∧ a.1 ≤ b.1)))

instance : IsTotal (Nat × ℚ) rankRel where
  total a b := by
    rcases lt_trichotomy a.2 b.2 with h | h | h
    · exact Or.inr (Or.inl h)
    · rcases Nat.le_total a.1 b.1 with h₂ | h₂
      · exact Or.inl (Or.inr ⟨h, h₂⟩)
      · exact Or.inr (Or.inr ⟨h.symm, h₂⟩)
    · exact Or.inl (Or.inl h)

instance : IsTrans (Nat × ℚ) rankRel where
  trans a b c hab hbc := by
    rcases hab with h₁ | ⟨h₁, h₁l⟩ <;> rcases hbc with h₂ | ⟨h₂, h₂l⟩
    · exact Or.inl (h₂.trans h₁)
    · exact Or.inl (h₂ ▸ h₁)
    · exact Or.inl (by rw [h₁]; exact h₂)
    · exact Or.inr ⟨h₁.trans h₂, le_trans h₁l h₂l⟩

/-- Modelled from the spec: `query(vector, k)` "computes cosine
similarity between the query vector and every stored vector, returns
the top-k by descending score; ties are broken by ascending entry id"
(spec §4.5).  The similarity metric is passed as an abstract scoring
function `score` (the factory is constructed with the cosine metric at
app.py line 134); only its determinism — equal stored vectors receive
equal scores — and the induced ordering matter to the properties
proved here. -/
def KnnIndex.query (score : List ℚ → List ℚ → ℚ) (idx : KnnIndex)
    (q : List ℚ) (k : Nat) : List (Nat × ℚ) :=
  ((idx.entries.map fun e => (e.1, score q e.2)).insertionSort rankRel).take k

/-- Two inserts of the same vector into a fresh index of matching
dimension (the spec §8 tie-break scenario: two identically embedded
chunks). -/
def insertTwice (v : List ℚ) : Except IndexError KnnIndex := do
  let i₁ ← (KnnIndex.empty v.length).insert v
  i₁.insert v

/-! ### Helper lemmas -/

/-- Every chunk row produced from one parent document in the splitter
path carries that document's headline. -/
theorem splitRows_headline (hline : String) :
    ∀ (l : List PyVal) (out : List DocRow),
      splitRows hline l = Except.ok out → ∀ r ∈ out, r.headline = hline := by
  intro l
  induction l with
  | nil =>
      intro out h r hr
      cases h
      simp at hr
  | cons c cs ih =>
      intro out h r hr
      unfold splitRows at h
      cases hc : extractChunk c with
      | error e => rw [hc] at h; simp at h
      | ok t =>
          rw [hc] at h
          cases hrest : splitRows hline cs with
          | error e => rw [hrest] at h; simp at h
          | ok rest =>
              rw [hrest] at h
              cases h
              rcases List.mem_cons.mp hr with h | h
              · rw [h]
              · exact ih rest hrest r h

/-- A list is the flattening of the singleton blocks of its elements. -/
theorem flatten_map_singleton {α : Type} (l : List α) :
    (l.map fun d => [d]).flatten = l := by
  induction l with
  | nil => rfl
  | cons d ds ih => simp [ih]

/-- The singleton blocks of a document list pair positionally with the
documents, each block's rows carrying that document's headline. -/
theorem forall₂_singleton_blocks (l : List DocRow) :
    List.Forall₂ (fun b d => ∀ r ∈ b, r.headline = d.headline)
      (l.map fun d => [d]) l := by
  induction l with
  | nil => exact List.Forall₂.nil
  | cons d ds ih =>
      refine List.Forall₂.cons ?_ ih
      intro r hr
      rw [List.mem_singleton.mp hr]

/-- The split-and-flatten stage emits exactly one block of chunk rows
per input document, concatenated in document order, and every row of a
block carries the headline of the document the block was derived
from. -/
theorem chunksFlat_blocks (split : PyVal → List PyVal) :
    ∀ (docs out : List DocRow),
      chunksFlat split docs = Except.ok out →
      ∃ blocks : List (List DocRow),
        out = blocks.flatten ∧
        List.Forall₂ (fun b d => ∀ r ∈ b, r.headline = d.headline)
          blocks docs := by
  intro docs
  induction docs with
  | nil =>
      intro out h
      cases h
      exact ⟨[], rfl, List.Forall₂.nil⟩
  | cons d ds ih =>
      intro out h
      unfold chunksFlat at h
      cases hrows : splitRows d.headline (split d.text) with
      | error e => rw [hrows] at h; simp at h
      | ok rows =>
          rw [hrows] at h
          cases hrest : chunksFlat split ds with
          | error e => rw [hrest] at h; simp at h
          | ok rest =>
              rw [hrest] at h
              cases h
              obtain ⟨blocks, hfl, hf⟩ := ih rest hrest
              refine ⟨rows :: blocks, ?_, List.Forall₂.cons
                (splitRows_headline d.headline (split d.text) rows hrows) hf⟩
              rw [List.flatten_cons, hfl]

/-- Whatever the splitter status, the chunk table is the concatenation
of one block per input document (in order), every row of a block
carrying its own parent document's headline; in the fallback paths the
blocks are the singleton rows of the documents themselves. -/
theorem chunksStage_blocks (st : SplitterStatus) (docs out : List DocRow)
    (h : chunksStage st docs = Except.ok out) :
    ∃ blocks : List (List DocRow),
      out = blocks.flatten ∧
      List.Forall₂ (fun b d => ∀ r ∈ b, r.headline = d.headline)
        blocks docs := by
  cases st with
  | absent =>
      cases h
      exact ⟨docs.map fun d => [d], (flatten_map_singleton docs).symm,
        forall₂_singleton_blocks docs⟩
  | constructionFailed =>
      cases h
      exact ⟨docs.map fun d => [d], (flatten_map_singleton docs).symm,
        forall₂_singleton_blocks docs⟩
  | available split => exact chunksFlat_blocks split docs out h

/-- The metadata-carrying store select gives every row, positionally,
the metadata dict built from its chunk's headline. -/
theorem storeRowsWithMeta_metadata :
    ∀ (chunks : List DocRow) (out : List StoreDoc),
      storeRowsWithMeta chunks = Except.ok out →
      out.map StoreDoc.metadata =
        chunks.map (fun c => some [("headline", c.headline)]) := by
  intro chunks
  induction chunks with
  | nil =>
      intro out h
      cases h
      rfl
  | cons c cs ih =>
      intro out h
      unfold storeRowsWithMeta at h
      cases hd : extractData c.text with
      | error e => rw [hd] at h; simp at h
      | ok d =>
          rw [hd] at h
          cases hrest : storeRowsWithMeta cs with
          | error e => rw [hrest] at h; simp at h
          | ok rest =>
              rw [hrest] at h
              cases h
              simp [List.map, ih rest hrest]

/-! ### Claim theorems -/

/-- C1: the embedding dimension resolved at startup is the model's
reported output dimension when `get_embedding_dimension()` succeeds and
the documented default 384 when it raises, and whichever value is
resolved is exactly the `dimensions` argument passed to
`BruteForceKnnFactory` when the index is created (the script computes
`emb_dim` once; no later assignment exists). -/
theorem claim_C1 (d : Nat) (e : PyErr) :
    emb_dim (Except.ok d) = d ∧
    emb_dim (Except.error e) = 384 ∧
    ∀ dimQuery : Except PyErr Nat,
      (knn_factory dimQuery).dimensions = emb_dim dimQuery :=
  ⟨rfl, rfl, fun _ => rfl⟩

/-- C2: when the token splitter is unavailable (import failed) or its
construction block raised, the `chunks` table equals the `documents`
table — every record's entire normalized body is emitted as exactly one
chunk row, the stage reports no error, and in particular every record
yields at least one chunk. -/
theorem claim_C2 (st : SplitterStatus) (docs : List DocRow)
    (h : st = SplitterStatus.absent ∨ st = SplitterStatus.constructionFailed) :
    chunksStage st docs = Except.ok docs := by
  rcases h with h | h <;> subst h <;> rfl

theorem claim_C2_witness :
    chunksStage SplitterStatus.absent [⟨PyVal.str "full body", "H"⟩] =
      Except.ok [⟨PyVal.str "full body", "H"⟩] :=
  claim_C2 SplitterStatus.absent [⟨PyVal.str "full body", "H"⟩] (Or.inl rfl)

/-- C3 counterexample: when `server.run` raises `TypeError` and the
`server.serve` fallback raises (e.g. failing to bind its address), the
exception is caught at app.py line 184 and only logged — startup
continues to `pw.run()` instead of aborting, so a raising run/serve
call is not always fatal as the claim states. -/
theorem claim_C3_counterexample :
    serverStart RunBehavior.raisesTypeError ServeBehavior.raises =
      Except.ok () :=
  rfl

/-- C3 (amended): an exception other than `TypeError` raised by
`server.run` (the form a bind failure takes) propagates uncaught and
aborts startup; but when `server.run` raises `TypeError`, the
`server.serve` fallback is attempted and any exception it raises is
caught and logged, after which startup continues to `pw.run()`. -/
theorem claim_C3 (sb : ServeBehavior) :
    serverStart RunBehavior.raisesOther sb = Except.error PyErr.osError ∧
    serverStart RunBehavior.raisesTypeError ServeBehavior.raises =
      Except.ok () := by
  cases sb <;> exact ⟨rfl, rfl⟩

/-- C4: when `SentenceTransformerEmbedder` could not be imported, the
check at app.py lines 49-53 raises `RuntimeError` and startup aborts
(provided configuration loading itself succeeded, since it runs first);
the error return means nothing after line 53 — no stream, no chunking
stage, no KNN index — is constructed. -/
theorem claim_C4 (caps : Caps) (env : Env) (dimQuery : Except PyErr Nat)
    (hemb : caps.sentenceTransformerAvailable = false)
    (cfg : Config) (hcfg : loadConfig env = Except.ok cfg) :
    startup caps env dimQuery =
      Except.error StartupError.embedderUnavailable := by
  unfold startup
  rw [hcfg]
  simp [hemb]
  rfl

theorem claim_C4_witness :
    loadConfig ⟨fun _ => none⟩ =
      Except.ok ⟨"./feed.jsonl", "0.0.0.0", 8000, "all-MiniLM-L6-v2"⟩ ∧
    startup ⟨true, true, false⟩ ⟨fun _ => none⟩ (Except.ok 384) =
      Except.error StartupError.embedderUnavailable :=
  ⟨rfl,
    claim_C4 ⟨true, true, false⟩ ⟨fun _ => none⟩ (Except.ok 384) rfl
      ⟨"./feed.jsonl", "0.0.0.0", 8000, "all-MiniLM-L6-v2"⟩ rfl⟩

/-- C5 counterexample: on an empty tuple both extraction lambdas index
the tuple at position 0 and raise `IndexError` to their caller, so the
extraction is not raise-free as the claim states. -/
theorem claim_C5_counterexample :
    extractBody (PyVal.tuple []) = Except.error PyErr.indexError ∧
    extractData (PyVal.tuple []) = Except.error PyErr.indexError :=
  ⟨rfl, rfl⟩

/-- C5 (amended): the extraction returns the first element of any
nonempty tuple (not only one-element tuples wrapping a string); on a
non-tuple value the documents-stage lambda (app.py line 74) returns the
value unchanged — without string coercion — while the store-stage
lambda (line 147) returns `str(value)`; on an empty tuple both raise
`IndexError`.  Non-tuple one-element sequences (e.g. lists) are not
unwrapped. -/
theorem claim_C5 (v : PyVal) :
    (match v with
     | PyVal.tuple [] =>
         extractBody v = Except.error PyErr.indexError ∧
         extractData v = Except.error PyErr.indexError
     | PyVal.tuple (x :: _) =>
         extractBody v = Except.ok x ∧ extractData v = Except.ok x
     | _ =>
         extractBody v = Except.ok v ∧
         extractData v = Except.ok (PyVal.str (pyStr v))) := by
  cases v with
  | str s => exact ⟨rfl, rfl⟩
  | int n => exact ⟨rfl, rfl⟩
  | tuple l => cases l <;> exact ⟨rfl, rfl⟩
  | listv l => exact ⟨rfl, rfl⟩

/-- C9: the parsing stage is the identity rebinding `chunks = documents`
at app.py line 86 — the rows (and in particular the text column)
entering the splitter block equal the normalized documents, and the
outcome is independent of whether the `UnstructuredParser` import
succeeded: the parser is never invoked. -/
theorem claim_C9 (caps caps₂ : Caps) (docs : List DocRow) :
    chunksBeforeSplit caps docs = docs ∧
    chunksBeforeSplit caps docs = chunksBeforeSplit caps₂ docs ∧
    (chunksBeforeSplit caps docs).map DocRow.text = docs.map DocRow.text :=
  ⟨rfl, rfl, rfl⟩

/-- C6 counterexample: when the metadata-building `select` at app.py
lines 146-152 raises, the except branch (lines 156-158) commits the
chunk with a data-only row — the committed chunk carries no metadata at
all, so not every chunk committed to the Document Store carries its
parent record's headline. -/
theorem claim_C6_counterexample :
    docs_for_store MetaSelect.raised [⟨PyVal.str "chunk text", "Headline"⟩] =
      Except.ok [{ data := PyVal.str "chunk text", metadata := none }] :=
  rfl

/-- C6 (amended): provided the metadata-building `select` succeeds, the
chunk table is the concatenation of exactly one block of chunk rows per
parent document, in document order, every row of a block carrying its
own parent document's headline (in both the splitter and the fallback
path), and every row committed to the Document Store carries,
positionally, the metadata `{"headline": headline-of-its-chunk}`
unchanged; when that `select` raises, rows are committed without
metadata. -/
theorem claim_C6 (st : SplitterStatus) (docs chunksOut : List DocRow)
    (storeOut : List StoreDoc)
    (h₁ : chunksStage st docs = Except.ok chunksOut)
    (h₂ : docs_for_store MetaSelect.succeeded chunksOut = Except.ok storeOut) :
    (∃ blocks : List (List DocRow),
        chunksOut = blocks.flatten ∧
        List.Forall₂ (fun b d => ∀ r ∈ b, r.headline = d.headline)
          blocks docs) ∧
    storeOut.map StoreDoc.metadata =
      chunksOut.map (fun c => some [("headline", c.headline)]) :=
  ⟨chunksStage_blocks st docs chunksOut h₁,
   storeRowsWithMeta_metadata chunksOut storeOut h₂⟩

theorem claim_C6_witness :
    chunksStage (SplitterStatus.available fun _ => [PyVal.str "c1", PyVal.str "c2"])
        [⟨PyVal.str "body", "H"⟩] =
      Except.ok [⟨PyVal.str "c1", "H"⟩, ⟨PyVal.str "c2", "H"⟩] ∧
    docs_for_store MetaSelect.succeeded
        [⟨PyVal.str "c1", "H"⟩, ⟨PyVal.str "c2", "H"⟩] =
      Except.ok [⟨PyVal.str "c1", some [("headline", "H")]⟩,
        ⟨PyVal.str "c2", some [("headline", "H")]⟩] ∧
    ((∃ blocks : List (List DocRow),
        [(⟨PyVal.str "c1", "H"⟩ : DocRow), ⟨PyVal.str "c2", "H"⟩] =
          blocks.flatten ∧
        List.Forall₂ (fun b d => ∀ r ∈ b, r.headline = d.headline)
          blocks [(⟨PyVal.str "body", "H"⟩ : DocRow)]) ∧
      List.map StoreDoc.metadata
          [⟨PyVal.str "c1", some [("headline", "H")]⟩,
            ⟨PyVal.str "c2", some [("headline", "H")]⟩] =
        List.map (fun c => some [("headline", c.headline)])
          [(⟨PyVal.str "c1", "H"⟩ : DocRow), ⟨PyVal.str "c2", "H"⟩]) :=
  ⟨rfl, rfl,
    claim_C6 (SplitterStatus.available fun _ => [PyVal.str "c1", PyVal.str "c2"])
      [⟨PyVal.str "body", "H"⟩]
      [⟨PyVal.str "c1", "H"⟩, ⟨PyVal.str "c2", "H"⟩]
      [⟨PyVal.str "c1", some [("headline", "H")]⟩,
        ⟨PyVal.str "c2", some [("headline", "H")]⟩]
      rfl rfl⟩

/-- C7 counterexample: an environment that supplies alternative values
for the commit interval and the token bounds through plausible
configuration variables is ignored — startup still fixes
`autocommit_duration_ms = 500` (app.py line 68) and
`min_tokens = 50, max_tokens = 400` (line 94): these are literal
constants of the program, not configuration values. -/
theorem claim_C7_counterexample :
    startup ⟨true, true, true⟩ envTuning (Except.ok 384) =
      Except.ok
        { cfg := ⟨"./feed.jsonl", "0.0.0.0", 8000, "all-MiniLM-L6-v2"⟩
          autocommit_duration_ms := 500
          splitterArgs := some ⟨50, 400, "cl100k_base"⟩
          knn := ⟨1000, 384⟩ } ∧
    (500 : Nat) ≠ 1000 ∧ (50 : Nat) ≠ 10 ∧ (400 : Nat) ≠ 100 :=
  ⟨rfl, by decide, by decide, by decide⟩

/-- C7 (amended): the stream reader's autocommit interval is the
constant 500 ms and, whenever the splitter is importable, its token
bounds are the constants `min_tokens = 50`, `max_tokens = 400`,
independently of every value supplied through the environment; only
the source path, bind host/port and model identifier are read from the
configuration surface. -/
theorem claim_C7 (caps : Caps) (env : Env) (dimQuery : Except PyErr Nat)
    (p : Pipeline) (h : startup caps env dimQuery = Except.ok p) :
    p.autocommit_duration_ms = 500 ∧
    p.splitterArgs =
      (if caps.tokenCountSplitterAvailable then
        some ⟨50, 400, "cl100k_base"⟩
      else
        none) := by
  unfold startup at h
  cases hcfg : loadConfig env with
  | error e => rw [hcfg] at h; simp [bind, Except.bind] at h
  | ok cfg =>
      rw [hcfg] at h
      cases hemb : caps.sentenceTransformerAvailable with
      | false => rw [hemb] at h; simp [bind, Except.bind] at h
      | true =>
          rw [hemb] at h
          simp only [bind, Except.bind, if_true] at h
          injection h with h₂
          subst h₂
          exact ⟨rfl, rfl⟩

theorem claim_C7_witness :
    startup ⟨true, true, true⟩ ⟨fun _ => none⟩ (Except.ok 5) =
      Except.ok
        { cfg := ⟨"./feed.jsonl", "0.0.0.0", 8000, "all-MiniLM-L6-v2"⟩
          autocommit_duration_ms := 500
          splitterArgs := some ⟨50, 400, "cl100k_base"⟩
          knn := ⟨1000, 5⟩ } ∧
    ((500 : Nat) = 500 ∧
      some (⟨50, 400, "cl100k_base"⟩ : SplitterArgs) =
        (if (⟨true, true, true⟩ : Caps).tokenCountSplitterAvailable then
          some ⟨50, 400, "cl100k_base"⟩
        else
          none)) :=
  ⟨rfl,
    claim_C7 ⟨true, true, true⟩ ⟨fun _ => none⟩ (Except.ok 5)
      { cfg := ⟨"./feed.jsonl", "0.0.0.0", 8000, "all-MiniLM-L6-v2"⟩
        autocommit_duration_ms := 500
        splitterArgs := some ⟨50, 400, "cl100k_base"⟩
        knn := ⟨1000, 5⟩ } rfl⟩

/-- C8: the index query returns entries ordered by the ranking relation
of spec §4.5 — descending score, ties broken by ascending entry id —
for every scoring function, index state, query vector and `k`; and on
an index holding two identically embedded entries (which therefore
receive equal scores), a top-1 query returns the lower-id entry. -/
theorem claim_C8 :
    (∀ (score : List ℚ → List ℚ → ℚ) (idx : KnnIndex) (q : List ℚ) (k : Nat),
        List.Sorted rankRel (KnnIndex.query score idx q k)) ∧
    (∀ (score : List ℚ → List ℚ → ℚ) (q v : List ℚ),
        ∃ idx : KnnIndex,
          insertTwice v = Except.ok idx ∧
          idx.entries = [(0, v), (1, v)] ∧
          KnnIndex.query score idx q 1 = [(0, score q v)]) := by
  constructor
  · intro score idx q k
    exact List.Pairwise.sublist (List.take_sublist k _)
      (List.sorted_insertionSort rankRel _)
  · intro score q v
    refine ⟨⟨v.length, [(0, v), (1, v)], 2⟩, ?_, rfl, ?_⟩
    · simp [insertTwice, KnnIndex.empty, KnnIndex.insert, bind, Except.bind]
    · show (([((0 : Nat), v), (1, v)].map
          fun e => (e.1, score q e.2)).insertionSort rankRel).take 1 =
        [(0, score q v)]
      simp only [List.map, List.insertionSort, List.orderedInsert]
      rw [if_pos (show rankRel (0, score q v) (1, score q v) from
        Or.inr ⟨rfl, Nat.zero_le 1⟩)]
      rfl

/-- C10: a `PORT` environment value that `int(...)` rejects raises an
uncaught `ValueError` at app.py line 39, during configuration loading;
startup aborts with that error whatever the capability flags and
embedder behaviour, so no pipeline component is ever constructed. -/
theorem claim_C10 (env : Env) (s : String)
    (hs : env.getenv "PORT" = some s) (hbad : pyIntOfString s = none)
    (caps : Caps) (dimQuery : Except PyErr Nat) :
    loadConfig env = Except.error StartupError.portValueError ∧
    startup caps env dimQuery =
      Except.error StartupError.portValueError := by
  have h₁ : loadConfig env = Except.error StartupError.portValueError := by
    unfold loadConfig
    rw [hs, Option.getD_some, hbad]
    rfl
  refine ⟨h₁, ?_⟩
  unfold startup
  rw [h₁]
  rfl

theorem claim_C10_witness :
    pyIntOfString "abc" = none ∧
    startup ⟨true, true, true⟩
        ⟨fun k => if k = "PORT" then some "abc" else none⟩ (Except.ok 384) =
      Except.error StartupError.portValueError :=
  ⟨rfl,
    (claim_C10 ⟨fun k => if k = "PORT" then some "abc" else none⟩ "abc"
      rfl rfl ⟨true, true, true⟩ (Except.ok 384)).2⟩

end FinanceRag
